import Mathlib

/-!
Verification of the deployment and publication-ingestion engine of the
spell-deploy repository. The Python sources (deploy.py, fetch_zotero.py,
web.py) are shallowly embedded below: strings are Lean strings manipulated
through their character lists, the mutable world (lock sentinel, run log,
publication directory, external-tool invocations) is threaded explicitly,
and code that can raise a Python exception is modelled with Option or an
explicit raised outcome.
-/

namespace SpellDeploy

/-! ## Python string primitives

Character-level models of the Python string operations used by the scripts.
-/

/-- Python str.split with a single separator character: the list of maximal
groups between separator occurrences, keeping empty groups, as in Python. -/
def splitP (p : Char → Bool) : List Char → List (List Char)
  | [] => [[]]
  | c :: rest =>
    match splitP p rest with
    | [] => [[]]
    | g :: gs => if p c then [] :: g :: gs else (c :: g) :: gs

/-- Python s.split(sep) for a one-character separator. -/
def pySplitChar (s : String) (sep : Char) : List String :=
  (splitP (fun x => x == sep) s.toList).map (fun g => String.mk g)

/-- Python s.replace(a, b) for one-character arguments: a character map. -/
def pyReplaceChar (s : String) (a b : Char) : String :=
  String.mk (s.toList.map (fun c => if c = a then b else c))

/-- Python slicing s[0:n]. -/
def strTake (s : String) (n : Nat) : String :=
  String.mk (s.toList.take n)

/-- Leftmost, non-overlapping substring replacement, as Python s.replace.
The fuel argument starts at the length of the scanned list and dominates it,
so the zero-fuel case is never reached from pyReplaceStr. -/
def pyReplaceStrAux (pat repl : List Char) : Nat → List Char → List Char
  | _, [] => []
  | 0, s => s
  | fuel + 1, c :: rest =>
    if pat ≠ [] ∧ pat.isPrefixOf (c :: rest) then
      repl ++ pyReplaceStrAux pat repl fuel ((c :: rest).drop pat.length)
    else
      c :: pyReplaceStrAux pat repl fuel rest

/-- Python s.replace(pat, repl) for substring patterns. -/
def pyReplaceStr (s pat repl : String) : String :=
  String.mk (pyReplaceStrAux pat.toList repl.toList s.toList.length s.toList)

/-- Python str.title restricted to ASCII letters: an alphabetic character is
uppercased when the previous character is not alphabetic and lowercased
otherwise; other characters pass through. The Bool argument records whether
the previous character was alphabetic (initially false). -/
def pyTitleAux : List Char → Bool → List Char
  | [], _ => []
  | c :: rest, prevAlpha =>
    (if c.isAlpha then (if prevAlpha then c.toLower else c.toUpper) else c)
      :: pyTitleAux rest c.isAlpha

/-- Python str.title on a string. -/
def pyTitle (s : String) : String :=
  String.mk (pyTitleAux s.toList false)

/-- The character class kept by the regex substitutions in create_filename:
the source pattern [^a-zA-Z0-9-_*.] removes everything else. -/
def allowedChar (c : Char) : Bool :=
  ('a' ≤ c && c ≤ 'z') || ('A' ≤ c && c ≤ 'Z') || ('0' ≤ c && c ≤ '9')
    || c == '-' || c == '_' || c == '*' || c == '.'

/-- Python re.sub with pattern [^a-zA-Z0-9-_*.] and empty replacement. -/
def pySubRemove (s : String) : String :=
  String.mk (s.toList.filter allowedChar)

/-! ## Bibliographic data model (fetch_zotero.py)

A raw Zotero record is a heterogeneous dictionary; every top-level field the
script subscripts is modelled as an Option, where none means the key is
absent and subscripting it raises KeyError. parentItem only ever appears in
a presence test, so it is modelled as a Bool. -/

/-- One entry of the creators list of a raw record. -/
structure Creator where
  creatorType : String
  firstName : Option String
  lastName : Option String
  name : Option String
deriving DecidableEq, Repr

/-- A raw bibliographic record as delivered by the Zotero API. -/
structure RawRecord where
  itemType : Option String
  parentItem : Bool
  DOI : Option String
  publicationTitle : Option String
  title : Option String
  url : Option String
  issue : Option String
  volume : Option String
  date : Option String
  tags : Option (List String)
  creators : Option (List Creator)
deriving DecidableEq, Repr

/-- The canonical record built by the normalization loop of fetch_zotero. -/
structure NormalizedRecord where
  doi : String
  journal : String
  title : String
  pubURL : String
  issue : String
  volume : String
  year : Option String
  keyword : List String
  lastnames : List String
  authorship : List String
  itemType : String
  labPublication : Bool
deriving DecidableEq, Repr

/-- format_date from fetch_zotero.py: replace each of space, hyphen, slash
and comma by an underscore, split on underscore, and return the first token
of length 4 whose characters are all numeric; the Python function falls off
the end (returns None) when no token qualifies. -/
def format_date (date : String) : Option String :=
  let date := pyReplaceChar date ' ' '_'
  let date := pyReplaceChar date '-' '_'
  let date := pyReplaceChar date '/' '_'
  let date := pyReplaceChar date ',' '_'
  (pySplitChar date '_').find? (fun d => d.length == 4 && d.toList.all Char.isDigit)

/-- format_doi from fetch_zotero.py: strip the two DOI-resolver prefixes. -/
def format_doi (doi : String) : String :=
  pyReplaceStr (pyReplaceStr doi "http://dx.doi.org/" "") "dx.doi.org/" ""

/-- format_firstname from fetch_zotero.py: split the given name on spaces
and hyphens; a single part yields the first character of the whole name
followed by a dot (IndexError, hence none, when the name is empty); several
parts yield the initials of the non-empty parts joined and terminated by
dots. -/
def format_firstname (firstname : String) : Option String :=
  let separated := pySplitChar firstname ' '
  let separated := (separated.map (fun name => pySplitChar name '-')).flatten
  if separated.length == 1 then
    (firstname.toList.head?).map (fun c => String.mk [c] ++ ".")
  else
    some (String.intercalate "."
      ((separated.filter (fun n => n != "")).map
        (fun n => String.mk [n.toList.headD 'A'])) ++ ".")

/-- One step of the authorship loop in format_authorship: an author with
both a family and a given name contributes abbreviated-first-name plus
last name (none when format_firstname raises); an author with only an
organizational name contributes it verbatim; everything else is skipped. -/
def format_authorship_step (authors : List String) (c : Creator) :
    Option (List String) :=
  if c.creatorType == "author" && c.lastName.isSome && c.firstName.isSome then
    match c.firstName, c.lastName with
    | some fn, some ln =>
      (format_firstname fn).map (fun f => authors ++ [f ++ " " ++ ln])
    | _, _ => some authors
  else if c.creatorType == "author" && c.name.isSome then
    some (authors ++ [c.name.getD ""])
  else
    some authors

/-- format_authorship from fetch_zotero.py. -/
def format_authorship (creators : List Creator) : Option (List String) :=
  creators.foldlM format_authorship_step []

/-- The per-article normalization block of fetch_zotero (the first loop of
the function body). Every field is read by direct subscript in the source,
so a missing field means KeyError: the result is none exactly when one of
the subscripted keys is absent or format_authorship raises. -/
def normalize (a : RawRecord) (lab : Bool) : Option NormalizedRecord :=
  match a.DOI, a.publicationTitle, a.title, a.url, a.issue, a.volume,
      a.date, a.tags, a.creators, a.itemType with
  | some doi, some journal, some title, some url, some issue, some volume,
      some date, some tags, some creators, some itemType =>
    (format_authorship creators).map (fun authorship =>
      { doi := format_doi doi
        journal := journal
        title := title
        pubURL := url
        issue := issue
        volume := volume
        year := format_date date
        keyword := tags
        lastnames := creators.filterMap (fun c => c.lastName)
        authorship := authorship
        itemType := itemType
        labPublication := lab })
  | _, _, _, _, _, _, _, _, _, _ => none

/-- The membership test of create_filename, written in the source as the
string lastnames tested against the enclosing list of raw record
dictionaries. In Python a string never compares equal to a dictionary, so
the test is false for every list; the elementwise comparison is kept
explicit here. -/
def strInRecordList (articles : List RawRecord) : Bool :=
  articles.any (fun _ => false)

/-- create_filename from fetch_zotero.py. The articles argument is the
enclosing raw-record list captured by the closure; the membership test on it
selects the branch. Reading element zero of an empty list raises IndexError,
modelled by none. -/
def create_filename (articles : List RawRecord) (article : NormalizedRecord) :
    Option String :=
  (if strInRecordList articles then article.lastnames.head?
   else (article.authorship.head?).map (fun s => (pySplitChar s ' ').headD ""))
    |>.map (fun author0 =>
      let author := pySubRemove author0
      let year := match article.year with
        | none => "0000"
        | some y => if y = "" then "0000" else y
      let title := pySubRemove (pyTitle article.title)
      let title := if title = "" then "XXXX" else title
      let author := if author = "" then "XX" else author
      author ++ year ++ "_" ++ strTake title 25)

/-- The publication directory as a mapping from filename to file text; a
write with open(path, w) replaces any previous file of the same name. -/
def writeFile (dir : List (String × String)) (name content : String) :
    List (String × String) :=
  (dir.filter (fun p => p.1 != name)) ++ [(name, content)]

/-- get_zotero_collection from fetch_zotero.py: keep the records that are
not attachments and have no parent item. Every record has its itemType
subscripted, so a record without the key raises KeyError (none). -/
def get_zotero_collection (items : List RawRecord) : Option (List RawRecord) :=
  items.foldrM
    (fun item acc =>
      (item.itemType).map (fun it =>
        if it != "attachment" && !item.parentItem then item :: acc else acc))
    []

/-- fetch_zotero from fetch_zotero.py, with the Zotero API response given as
the raw item list and the pyaml serializer given as the dump argument.
Normalizes every collection record and writes one front-matter document per
record into the directory; none models any raised exception. -/
def fetch_zotero (dump : NormalizedRecord → String) (items : List RawRecord)
    (lab : Bool) (pubdir : List (String × String)) :
    Option (List (String × String)) := do
  let articles ← get_zotero_collection items
  let collection ← articles.mapM (fun a => normalize a lab)
  collection.foldlM
    (fun d art =>
      (create_filename articles art).map (fun fn =>
        writeFile d (fn ++ ".md") ("---\n" ++ dump art ++ "---")))
    pubdir

/-! ## Deployment engine (deploy.py)

The mutable world touched by the two pipelines: the lock sentinel
(cache_dir/deploy.lock), the run log (log_dir/current.log, kept as the list
of written entries), the sequence of performed external actions, and the
publication content directory. External tools are synchronous; their exit
status is recorded (the source never reads it) and their possible
exceptions are injected through a fault environment. -/

/-- One externally visible pipeline action. -/
inductive Ev where
  | gitPull (exitStatus : Nat)
  | hugo (exitStatus : Nat)
  | genScript (text : String)
  | lftp (script : String) (envPassword : String) (exitStatus : Nat)
  | purgePubDir
  | fetchLab
  | fetchExt
deriving DecidableEq, Repr

/-- The shared mutable state visible across trigger paths. -/
structure World where
  lockHeld : Bool
  logLines : List String
  events : List Ev
  pubDir : List (String × String)
deriving DecidableEq, Repr

/-- Configuration parameters read by deploy (deploy.conf). -/
structure Config where
  server : String
  user : String
  password : String
  path : String
  repository : String
deriving DecidableEq, Repr

/-- Fault environment for the deployment pipeline: whether each external
invocation raises an exception, and the exit status it returns when it does
not (the source discards the exit status of every run call). -/
structure Faults where
  pullRaises : Bool
  pullExit : Nat
  buildRaises : Bool
  hugoExit : Nat
  lftpRaises : Bool
  lftpExit : Nat
deriving DecidableEq, Repr

/-- How a pipeline invocation terminates: normal completion, the
already-running early exit, or an uncaught exception escaping the
function. -/
inductive DeployResult where
  | done
  | alreadyRunning
  | raised
deriving DecidableEq, Repr

/-- The fixed remote directories purged by the generated transfer script. -/
def dirs_to_del : List String :=
  ["about", "css", "fonts", "images", "js", "logo",
   "news", "page", "person", "project", "publication", "subject"]

/-- The fixed remote files purged by the generated transfer script. -/
def files_to_del : List String :=
  ["index.html", "index.xml", "sitemap.xml"]

/-- generate_lftp from deploy.py: the text written to cache_dir/deploy.lftp.
Indexing sftp_path[-1] on an empty remote path raises IndexError (none);
otherwise a trailing slash is dropped and the directive lines are emitted.
The password argument is accepted but never written. -/
def generate_lftp (sftp_server sftp_user sftp_password sftp_path
    local_dir : String) : Option String :=
  if sftp_path = "" then none
  else
    let sftp_path :=
      if sftp_path.toList.getLast? = some '/' then
        String.mk sftp_path.toList.dropLast
      else sftp_path
    some ("open -u " ++ sftp_user ++ " --env-password -p 22 sftp://"
        ++ sftp_server ++ sftp_path
      ++ "\nmkdir -p -f " ++ sftp_path
      ++ "\ncd " ++ sftp_path
      ++ String.join (dirs_to_del.map (fun d => "\nrm -r " ++ d))
      ++ String.join (files_to_del.map (fun fl => "\nrm " ++ fl))
      ++ "\ncd .."
      ++ "\nmirror -R " ++ local_dir ++ " " ++ sftp_path)

/-- update from deploy.py: generate the script for local_dir/public, then
invoke lftp on it with the password supplied through the LFTP_PASSWORD
environment variable of the invoking process. The result is the script text
together with the environment-variable value handed to the tool. -/
def update (sftp_server sftp_user sftp_password sftp_path local_dir : String) :
    Option (String × String) :=
  (generate_lftp sftp_server sftp_user sftp_password sftp_path
      (local_dir ++ "/public")).map
    (fun script => (script, sftp_password))

/-- The message logged when the lock is already held (deploy.py). -/
def deployAbort : String :=
  "Another instance of the script is already running. Exiting..."

/-- The log entries deploy writes before the lock check: reset_log truncates
the log, then the run header and the configuration echo lines are
appended. -/
def deployHeaderLines (c : Config) (now : String) : List String :=
  [now, "Parsing configuration parameters...",
   "SFTP server: " ++ c.server,
   "SFTP user: " ++ c.user,
   "SFTP path: " ++ c.path]

/-- deploy from deploy.py. The log is reset and written, the lock sentinel
is tested, and on acquisition the stages run in order: git pull, hugo build,
transfer-script generation, lftp mirror. No return status is inspected; an
exception raised by a stage propagates out of the function, skipping every
later statement including unlock. -/
def deploy (c : Config) (f : Faults) (now : String) (w : World) :
    DeployResult × World :=
  let w := { w with logLines := deployHeaderLines c now }
  if w.lockHeld then
    (DeployResult.alreadyRunning, { w with logLines := w.logLines ++ [deployAbort] })
  else
    let w := { w with lockHeld := true }
    let w := { w with logLines := w.logLines ++ ["Pulling changes from Github..."] }
    if f.pullRaises then (DeployResult.raised, w) else
    let w := { w with events := w.events ++ [Ev.gitPull f.pullExit] }
    let w := { w with logLines := w.logLines ++ ["Rebuilding website..."] }
    if f.buildRaises then (DeployResult.raised, w) else
    let w := { w with events := w.events ++ [Ev.hugo f.hugoExit] }
    let w := { w with logLines := w.logLines ++ ["Uploading files..."] }
    match generate_lftp c.server c.user c.password c.path
        (c.repository ++ "/public") with
    | none => (DeployResult.raised, w)
    | some script =>
      let w := { w with events := w.events ++ [Ev.genScript script] }
      if f.lftpRaises then (DeployResult.raised, w) else
      let w := { w with events := w.events ++ [Ev.lftp script c.password f.lftpExit] }
      let w := { w with lockHeld := false }
      let w := { w with logLines := w.logLines ++ ["Done."] }
      (DeployResult.done, w)

/-- update_publications from deploy.py: reset the log, write the header,
purge the publication directory wholesale, then fetch and write the lab and
the external collections. The Bool is false when a fetch raised, in which
case the remaining statements of the function are skipped. -/
def update_publications (dump : NormalizedRecord → String)
    (labItems extItems : List RawRecord) (now : String) (w : World) :
    World × Bool :=
  let w := { w with logLines := [now] }
  let w := { w with logLines := w.logLines ++ ["Removing old files..."] }
  let w := { w with pubDir := [], events := w.events ++ [Ev.purgePubDir] }
  let w := { w with logLines := w.logLines ++ ["Fetching lab publications..."] }
  match fetch_zotero dump labItems true w.pubDir with
  | none => (w, false)
  | some d1 =>
    let w := { w with pubDir := d1, events := w.events ++ [Ev.fetchLab] }
    let w := { w with logLines := w.logLines ++ ["Fetching team publications..."] }
    match fetch_zotero dump extItems false w.pubDir with
    | none => (w, false)
    | some d2 =>
      let w := { w with pubDir := d2, events := w.events ++ [Ev.fetchExt] }
      let w := { w with logLines := w.logLines ++ ["Done."] }
      (w, true)

/-- fetch_publications from deploy.py: reset the log, test the lock
sentinel, and on acquisition run update_publications and unlock. An
exception inside update_publications propagates, skipping the unlock. -/
def fetch_publications (dump : NormalizedRecord → String)
    (labItems extItems : List RawRecord) (now : String) (w : World) :
    DeployResult × World :=
  let w := { w with logLines := [] }
  if w.lockHeld then
    (DeployResult.alreadyRunning, { w with logLines := w.logLines ++ [deployAbort] })
  else
    let w := { w with lockHeld := true }
    let p := update_publications dump labItems extItems now w
    if p.2 then
      (DeployResult.done, { p.1 with lockHeld := false })
    else
      (DeployResult.raised, p.1)

/-! ## Spec-level reformulations and helper lemmas -/

theorem toList_mk (l : List Char) : (String.mk l).toList = l := rfl

def isDateSep (c : Char) : Bool :=
  c == ' ' || c == '-' || c == '/' || c == ',' || c == '_'

def yearSpec (date : String) : Option String :=
  ((splitP isDateSep date.toList).map (fun g => String.mk g)).find?
    (fun d => d.length == 4 && d.toList.all Char.isDigit)

def replAll (c : Char) : Char := if isDateSep c then '_' else c

theorem splitP_ne_nil (p : Char → Bool) (l : List Char) : splitP p l ≠ [] := by
  cases l with
  | nil => simp [splitP]
  | cons c rest =>
    simp only [splitP]
    cases splitP p rest with
    | nil => simp
    | cons g gs => by_cases h : p c <;> simp [h]

theorem splitP_map (p : Char → Bool) (f : Char → Char) (l : List Char) :
    splitP p (l.map f) = (splitP (fun c => p (f c)) l).map (List.map f) := by
  induction l with
  | nil => simp [splitP]
  | cons c rest ih =>
    simp only [List.map_cons, splitP, ih]
    cases hsp : splitP (fun c => p (f c)) rest with
    | nil => exact absurd hsp (splitP_ne_nil _ _)
    | cons g gs => by_cases h : p (f c) <;> simp [h]

theorem splitP_congr (p q : Char → Bool) (l : List Char) (h : ∀ c, p c = q c) :
    splitP p l = splitP q l := by
  induction l with
  | nil => rfl
  | cons c rest ih => simp only [splitP, ih, h]

theorem splitP_groups (p : Char → Bool) (l : List Char) :
    ∀ g ∈ splitP p l, ∀ c ∈ g, p c = false := by
  induction l with
  | nil => intro g hg c hc; simp [splitP] at hg; subst hg; simp at hc
  | cons x rest ih =>
    intro g hg c hc
    simp only [splitP] at hg
    cases hsp : splitP p rest with
    | nil => exact absurd hsp (splitP_ne_nil _ _)
    | cons g0 gs =>
      rw [hsp] at hg
      by_cases h : p x
      · simp [h] at hg
        rcases hg with hg | hg | hg
        · subst hg; simp at hc
        · exact ih g0 (by rw [hsp]; simp) c (hg ▸ hc)
        · exact ih g (by rw [hsp]; simp [hg]) c hc
      · simp [h] at hg
        rcases hg with hg | hg
        · subst hg
          rcases List.mem_cons.mp hc with hc | hc
          · subst hc; simpa using h
          · exact ih g0 (by rw [hsp]; simp) c hc
        · exact ih g (by rw [hsp]; simp [hg]) c hc

theorem replChain_char (c : Char) :
    (fun x => if x = ',' then '_' else x)
      ((fun x => if x = '/' then '_' else x)
        ((fun x => if x = '-' then '_' else x)
          ((fun x => if x = ' ' then '_' else x) c))) = replAll c := by
  by_cases h1 : c = ' '
  · subst h1; decide
  · by_cases h2 : c = '-'
    · subst h2; decide
    · by_cases h3 : c = '/'
      · subst h3; decide
      · by_cases h4 : c = ','
        · subst h4; decide
        · by_cases h5 : c = '_'
          · subst h5; decide
          · simp [replAll, isDateSep, h1, h2, h3, h4, h5]

theorem sep_pred (c : Char) : ((replAll c) == '_') = isDateSep c := by
  by_cases h1 : c = ' '
  · subst h1; decide
  · by_cases h2 : c = '-'
    · subst h2; decide
    · by_cases h3 : c = '/'
      · subst h3; decide
      · by_cases h4 : c = ','
        · subst h4; decide
        · by_cases h5 : c = '_'
          · subst h5; decide
          · simp [replAll, isDateSep, h1, h2, h3, h4, h5]

theorem format_date_eq_yearSpec (d : String) : format_date d = yearSpec d := by
  unfold format_date yearSpec pySplitChar pyReplaceChar
  simp only [toList_mk, List.map_map]
  have hchain : (d.toList.map
      ((fun x => if x = ',' then '_' else x) ∘ (fun x => if x = '/' then '_' else x) ∘
       (fun x => if x = '-' then '_' else x) ∘ (fun x => if x = ' ' then '_' else x)))
      = d.toList.map replAll := by
    apply List.map_congr_left
    intro c _
    exact replChain_char c
  rw [hchain, splitP_map]
  have hpred : splitP (fun c => (replAll c) == '_') d.toList = splitP isDateSep d.toList :=
    splitP_congr _ _ _ sep_pred
  rw [hpred]
  have hgroups : (splitP isDateSep d.toList).map (List.map replAll)
      = splitP isDateSep d.toList := by
    have hinner : ∀ g ∈ splitP isDateSep d.toList, List.map replAll g = id g := by
      intro g hg
      have hid : ∀ c ∈ g, replAll c = id c := by
        intro c hc
        have hf := splitP_groups isDateSep d.toList g hg c hc
        simp [replAll, hf]
      calc g.map replAll = g.map id := List.map_congr_left hid
        _ = id g := List.map_id g
    calc (splitP isDateSep d.toList).map (List.map replAll)
        = (splitP isDateSep d.toList).map id := List.map_congr_left hinner
      _ = splitP isDateSep d.toList := List.map_id _
  rw [hgroups]

/-- The title fragment of a synthesized filename: the title is title-cased,
filtered to the allowed character class, replaced by XXXX when the filtered
result is empty, and finally truncated to 25 characters, exactly as in the
title-handling lines of create_filename. -/
def titleFragment (t : String) : String :=
  let t1 := pySubRemove (pyTitle t)
  strTake (if t1 = "" then "XXXX" else t1) 25

theorem strInRecordList_eq_false (articles : List RawRecord) :
    strInRecordList articles = false := by
  simp [strInRecordList]

theorem strTake_length_le (s : String) (n : Nat) : (strTake s n).length ≤ n := by
  have h : (strTake s n).length = (s.toList.take n).length := rfl
  rw [h, List.length_take]
  exact Nat.min_le_left _ _

theorem titleFragment_length_le (t : String) : (titleFragment t).length ≤ 25 :=
  strTake_length_le _ _

theorem titleFragment_allowed (t : String) :
    (titleFragment t).toList.all allowedChar = true := by
  simp only [titleFragment]
  by_cases h : pySubRemove (pyTitle t) = ""
  · rw [h]; decide
  · rw [if_neg h]
    have htl : (strTake (pySubRemove (pyTitle t)) 25).toList
        = ((pyTitle t).toList.filter allowedChar).take 25 := rfl
    rw [htl, List.all_eq_true]
    intro c hc
    exact List.of_mem_filter (List.take_subset _ _ hc)

/-- Recognizes a mirror-tool invocation in the event trace. -/
def isLftpEv : Ev → Bool
  | Ev.lftp _ _ _ => true
  | _ => false

/-- Recognizes a transfer-script generation in the event trace. -/
def isGenScriptEv : Ev → Bool
  | Ev.genScript _ => true
  | _ => false

theorem update_publications_lockHeld (dump : NormalizedRecord → String)
    (labItems extItems : List RawRecord) (now : String) (w : World) :
    (update_publications dump labItems extItems now w).1.lockHeld = w.lockHeld := by
  simp only [update_publications]
  cases fetch_zotero dump labItems true ([] : List (String × String)) with
  | none => rfl
  | some d1 =>
    simp only []
    cases fetch_zotero dump extItems false d1 with
    | none => rfl
    | some d2 => rfl

/-! ## Concrete fixtures used by witnesses and counterexamples -/

/-- A sample configuration. -/
def cCfg : Config :=
  { server := "s", user := "u", password := "pw", path := "p", repository := "r" }

/-- No external invocation raises and every tool exits with status 0. -/
def fOk : Faults :=
  { pullRaises := false, pullExit := 0, buildRaises := false, hugoExit := 0,
    lftpRaises := false, lftpExit := 0 }

/-- The git pull invocation raises an exception. -/
def fPullRaise : Faults := { fOk with pullRaises := true }

/-- The build stage raises an exception. -/
def fBuildRaise : Faults := { fOk with buildRaises := true }

/-- No invocation raises, but hugo exits with the failure status 1. -/
def fHugoFail : Faults := { fOk with hugoExit := 1 }

/-- An idle world: lock free, empty log, no events, empty directory. -/
def w0 : World := { lockHeld := false, logLines := [], events := [], pubDir := [] }

/-- A world in which another run holds the lock and has written a log line. -/
def wHeld : World :=
  { lockHeld := true, logLines := ["previous run entry"], events := [],
    pubDir := [("old.md", "old")] }

/-- A fixed serializer standing in for pyaml.dump. -/
def dumpX : NormalizedRecord → String := fun _ => "Y"

/-- An author creator with both names present. -/
def c5creator : Creator :=
  { creatorType := "author", firstName := some "Ann", lastName := some "Smith",
    name := none }

/-- A fully populated raw record. -/
def r5 : RawRecord :=
  { itemType := some "journalArticle", parentItem := false, DOI := some "10.1/x",
    publicationTitle := some "J", title := some "T", url := some "u",
    issue := some "1", volume := some "2", date := some "2020",
    tags := some [], creators := some [c5creator] }

/-- The same record with an empty creators list. -/
def r5b : RawRecord := { r5 with creators := some ([] : List Creator) }

/-- The same record with the year-free date n.d. -/
def r6nd : RawRecord := { r5 with date := some "n.d." }

/-- The same record with a date whose only 4-digit token is produced by the
underscore split. -/
def r6us : RawRecord := { r5 with date := some "a_2020" }

/-- The record missing only its DOI field. -/
def r4 : RawRecord := { r5 with DOI := none }

/-- The normalization of r5. -/
def nr5 : NormalizedRecord :=
  { doi := "10.1/x", journal := "J", title := "T", pubURL := "u", issue := "1",
    volume := "2", year := some "2020", keyword := [], lastnames := ["Smith"],
    authorship := ["A. Smith"], itemType := "journalArticle",
    labPublication := true }

/-- A normalized record with no extractable year. -/
def art6 : NormalizedRecord := { nr5 with year := none }

/-! ## Claim theorems -/

/-- C2: an invocation of either pipeline that starts while the lock is
already held returns the already-running outcome, appends the
already-running abort message to the log, performs no pipeline action (the
event trace and the publication directory are untouched, so no source sync,
build, script generation, transfer, purge or fetch happens) and leaves the
lock state unchanged. -/
theorem c2_mutual_exclusion_on_rejection
    (c : Config) (f : Faults) (now : String) (w : World)
    (dump : NormalizedRecord → String) (labItems extItems : List RawRecord)
    (h : w.lockHeld = true) :
    (deploy c f now w).1 = DeployResult.alreadyRunning ∧
    (deploy c f now w).2.lockHeld = w.lockHeld ∧
    (deploy c f now w).2.events = w.events ∧
    (deploy c f now w).2.pubDir = w.pubDir ∧
    (deploy c f now w).2.logLines.getLast? = some deployAbort ∧
    (fetch_publications dump labItems extItems now w).1
      = DeployResult.alreadyRunning ∧
    (fetch_publications dump labItems extItems now w).2.lockHeld = w.lockHeld ∧
    (fetch_publications dump labItems extItems now w).2.events = w.events ∧
    (fetch_publications dump labItems extItems now w).2.pubDir = w.pubDir ∧
    (fetch_publications dump labItems extItems now w).2.logLines
      = [deployAbort] := by
  simp [deploy, fetch_publications, h]

/-- Witness for C2 at a concrete held world. -/
theorem c2_mutual_exclusion_on_rejection_witness :
    (deploy cCfg fOk "now" wHeld).1 = DeployResult.alreadyRunning ∧
    (deploy cCfg fOk "now" wHeld).2.lockHeld = wHeld.lockHeld ∧
    (deploy cCfg fOk "now" wHeld).2.events = wHeld.events ∧
    (deploy cCfg fOk "now" wHeld).2.pubDir = wHeld.pubDir ∧
    (deploy cCfg fOk "now" wHeld).2.logLines.getLast? = some deployAbort ∧
    (fetch_publications dumpX [r5] [] "now" wHeld).1
      = DeployResult.alreadyRunning ∧
    (fetch_publications dumpX [r5] [] "now" wHeld).2.lockHeld = wHeld.lockHeld ∧
    (fetch_publications dumpX [r5] [] "now" wHeld).2.events = wHeld.events ∧
    (fetch_publications dumpX [r5] [] "now" wHeld).2.pubDir = wHeld.pubDir ∧
    (fetch_publications dumpX [r5] [] "now" wHeld).2.logLines = [deployAbort] :=
  c2_mutual_exclusion_on_rejection cCfg fOk "now" wHeld dumpX [r5] [] (by decide)

/-- C7 (amended): a pipeline invocation that finds the lock already held
truncates the shared run log before checking the lock: after it returns,
the log holds exactly the rejected invocation's own header and
configuration lines followed by its abort message (for the deployment
pipeline) or the abort message alone (for the ingestion pipeline),
independently of whatever the in-progress run had written. -/
theorem c7_rejected_trigger_truncates_log
    (c : Config) (f : Faults) (now : String) (w : World)
    (dump : NormalizedRecord → String) (labItems extItems : List RawRecord)
    (w2 : World) (h : w.lockHeld = true) (h2 : w2.lockHeld = true) :
    (deploy c f now w).2.logLines = deployHeaderLines c now ++ [deployAbort] ∧
    (fetch_publications dump labItems extItems now w2).2.logLines
      = [deployAbort] := by
  simp [deploy, fetch_publications, h, h2]

/-- Witness for the amended C7 at a concrete held world. -/
theorem c7_rejected_trigger_truncates_log_witness :
    (deploy cCfg fOk "now" wHeld).2.logLines
      = deployHeaderLines cCfg "now" ++ [deployAbort] ∧
    (fetch_publications dumpX [r5] [] "now" wHeld).2.logLines = [deployAbort] :=
  c7_rejected_trigger_truncates_log cCfg fOk "now" wHeld dumpX [r5] [] wHeld
    (by decide) (by decide)

/-- Counterexample to C7 as stated: at a held world whose log holds one line
of the in-progress run, the rejected deployment invocation does not leave
that log unchanged up to appending its own abort message, and neither does
the rejected ingestion invocation — the earlier line is destroyed. -/
theorem c7_counterexample :
    wHeld.lockHeld = true ∧
    (deploy cCfg fOk "now" wHeld).2.logLines ≠ wHeld.logLines ++ [deployAbort] ∧
    (fetch_publications dumpX [] [] "now" wHeld).2.logLines
      ≠ wHeld.logLines ++ [deployAbort] := by
  refine ⟨rfl, ?_, ?_⟩ <;> decide

/-- C1 (amended): for an invocation that acquires the lock, the lock is
Free after the pipeline returns whenever no stage raises an exception —
external-tool exit statuses are never inspected, so a failed tool exit does
not prevent the release — but a stage that raises an exception propagates
out of the pipeline function and skips the release, leaving the lock Held.
Stated for both the deployment and the ingestion pipeline. -/
theorem c1_lock_release (c : Config) (f : Faults) (now : String) (w : World)
    (dump : NormalizedRecord → String) (labItems extItems : List RawRecord)
    (w2 : World) :
    (w.lockHeld = false →
      (((deploy c f now w).1 = DeployResult.done →
          (deploy c f now w).2.lockHeld = false) ∧
       ((deploy c f now w).1 = DeployResult.raised →
          (deploy c f now w).2.lockHeld = true) ∧
       (c.path ≠ "" → f.pullRaises = false → f.buildRaises = false →
          f.lftpRaises = false → (deploy c f now w).1 = DeployResult.done))) ∧
    (w2.lockHeld = false →
      (((fetch_publications dump labItems extItems now w2).1
            = DeployResult.done →
          (fetch_publications dump labItems extItems now w2).2.lockHeld
            = false) ∧
       ((fetch_publications dump labItems extItems now w2).1
            = DeployResult.raised →
          (fetch_publications dump labItems extItems now w2).2.lockHeld
            = true))) := by
  constructor
  · intro h
    by_cases h1 : f.pullRaises
    · simp [deploy, h, h1]
    · by_cases h2 : f.buildRaises
      · simp [deploy, h, h1, h2]
      · by_cases hp : c.path = ""
        · simp [deploy, generate_lftp, h, h1, h2, hp]
        · have hg : ∃ s, generate_lftp c.server c.user c.password c.path
              (c.repository ++ "/public") = some s := by
            simp [generate_lftp, hp]
          obtain ⟨s, hs⟩ := hg
          by_cases h3 : f.lftpRaises
          · simp [deploy, h, h1, h2, h3, hs]
          · simp [deploy, h, h1, h2, h3, hs]
  · intro h
    simp only [fetch_publications]
    rw [show ({ w2 with logLines := ([] : List String) } : World).lockHeld
        = w2.lockHeld from rfl, h]
    simp only [Bool.false_eq_true, if_false]
    split_ifs with hup
    · simp
    · simp only []
      constructor
      · intro hcontra
        exact absurd hcontra (by simp)
      · intro _
        rw [update_publications_lockHeld]

/-- Witness for the amended C1: at a concrete idle world with no raising
stage, the deployment pipeline completes and the lock ends Free. -/
theorem c1_lock_release_witness :
    (deploy cCfg fOk "now" w0).1 = DeployResult.done ∧
    (deploy cCfg fOk "now" w0).2.lockHeld = false := by
  have h := (c1_lock_release cCfg fOk "now" w0 dumpX [] [] w0).1 (by decide)
  have hdone := h.2.2 (by decide) (by decide) (by decide) (by decide)
  exact ⟨hdone, h.1 hdone⟩

/-- Counterexample to C1 as stated: in an idle world, when the source-sync
stage raises, the pipeline aborts with the lock still Held, so release does
not happen on every exit path. -/
theorem c1_counterexample :
    w0.lockHeld = false ∧
    (deploy cCfg fPullRaise "now" w0).1 = DeployResult.raised ∧
    (deploy cCfg fPullRaise "now" w0).2.lockHeld = true := by
  refine ⟨rfl, ?_, ?_⟩ <;> decide

/-- C3 (amended): stages execute strictly in the fixed order git pull, hugo
build, transfer-script generation, mirror transfer, and a stage that raises
an exception aborts all subsequent stages — in particular a raising build
stage means no transfer script is generated and the mirror tool is never
invoked — but the exit status of an external tool is never inspected, so a
tool that merely exits nonzero (an abnormal exit) does not abort the
pipeline: the remaining stages still run. -/
theorem c3_stage_ordering (c : Config) (f : Faults) (now : String) (w : World)
    (h : w.lockHeld = false) :
    (f.pullRaises = true → (deploy c f now w).2.events = w.events) ∧
    (f.pullRaises = false → f.buildRaises = true →
      (deploy c f now w).2.events = w.events ++ [Ev.gitPull f.pullExit]) ∧
    (c.path ≠ "" → f.pullRaises = false → f.buildRaises = false →
      f.lftpRaises = false →
      ∃ s, generate_lftp c.server c.user c.password c.path
          (c.repository ++ "/public") = some s ∧
        (deploy c f now w).2.events = w.events ++
          [Ev.gitPull f.pullExit, Ev.hugo f.hugoExit, Ev.genScript s,
           Ev.lftp s c.password f.lftpExit]) := by
  refine ⟨?_, ?_, ?_⟩
  · intro h1
    simp [deploy, h, h1]
  · intro h1 h2
    simp [deploy, h, h1, h2]
  · intro hp h1 h2 h3
    have hg : ∃ s, generate_lftp c.server c.user c.password c.path
        (c.repository ++ "/public") = some s := by
      simp [generate_lftp, hp]
    obtain ⟨s, hs⟩ := hg
    exact ⟨s, hs, by simp [deploy, h, h1, h2, h3, hs]⟩

/-- Witness for the amended C3 at a concrete idle world: the raising build
stage suppresses the script and mirror stages. -/
theorem c3_stage_ordering_witness :
    (deploy cCfg fBuildRaise "now" w0).2.events
      = w0.events ++ [Ev.gitPull fBuildRaise.pullExit] :=
  (c3_stage_ordering cCfg fBuildRaise "now" w0 (by decide)).2.1 (by decide)
    (by decide)

/-- Counterexample to C3 as stated: when the site-build tool fails with
exit status 1, the transfer script is still generated and the mirror tool
is still invoked, because the pipeline never inspects the exit status. -/
theorem c3_counterexample :
    fHugoFail.hugoExit = 1 ∧
    Ev.hugo 1 ∈ (deploy cCfg fHugoFail "now" w0).2.events ∧
    (deploy cCfg fHugoFail "now" w0).2.events.any isGenScriptEv = true ∧
    (deploy cCfg fHugoFail "now" w0).2.events.any isLftpEv = true := by
  refine ⟨rfl, ?_, ?_, ?_⟩ <;> decide

/-- C10: the generated transfer script is independent of the remote
password — for any two credentials differing only in the password the
script text is identical — and the mirror invocation receives the password
only as the value of its isolated environment variable. -/
theorem c10_secret_non_persistence (server user p1 p2 path ldir : String) :
    generate_lftp server user p1 path ldir
      = generate_lftp server user p2 path ldir ∧
    (update server user p1 path ldir).map Prod.fst
      = (update server user p2 path ldir).map Prod.fst ∧
    (update server user p1 path ldir).map Prod.snd
      = (generate_lftp server user p1 path (ldir ++ "/public")).map
          (fun _ => p1) := by
  refine ⟨rfl, ?_, ?_⟩
  · have hg : generate_lftp server user p2 path (ldir ++ "/public")
        = generate_lftp server user p1 path (ldir ++ "/public") := rfl
    rw [update, update, hg]
    cases generate_lftp server user p1 path (ldir ++ "/public") <;> simp
  · rw [update]
    cases generate_lftp server user p1 path (ldir ++ "/public") <;> simp

/-- C4 (amended): normalization tolerates a missing creator sub-field and a
date with no extractable year, but it succeeds exactly when every
subscripted top-level field (DOI, venue, title, url, issue, volume, date,
tags, creators, itemType) is present and the authorship formatting does not
itself raise; a missing top-level field makes normalization fail with a
KeyError instead of defaulting. -/
theorem c4_missing_field_behavior (a : RawRecord) (lab : Bool) :
    (normalize a lab).isSome =
      (a.DOI.isSome && a.publicationTitle.isSome && a.title.isSome &&
       a.url.isSome && a.issue.isSome && a.volume.isSome && a.date.isSome &&
       a.tags.isSome && a.itemType.isSome &&
       (match a.creators with
        | none => false
        | some cs => (format_authorship cs).isSome)) := by
  rcases a with ⟨it, pi, doi, pt, ti, u, iss, vo, da, tg, cr⟩
  cases doi <;> cases pt <;> cases ti <;> cases u <;> cases iss <;> cases vo <;>
    cases da <;> cases tg <;> cases cr <;> cases it <;> simp [normalize]

/-- Counterexample to C4 as stated: a record lacking only its DOI field is
not normalized into a NormalizedRecord — normalization raises (none)
instead of defaulting the field. -/
theorem c4_counterexample :
    r4.DOI = none ∧ r4.title.isSome = true ∧ normalize r4 true = none := by
  refine ⟨rfl, rfl, ?_⟩
  decide

/-- C5: evaluation of the code at the discriminating inputs. For a record
whose captured last-name list is the non-empty list containing Smith, the
synthesized filename takes its author part from the first token A. of the
formatted authorship entry, not from the last name; and for a record whose
authorship list is empty the filename synthesis raises IndexError (none)
instead of falling back to XX. The membership test on the enclosing raw
list is false for every list, so the last-name branch is unreachable. -/
theorem c5_author_component_code_behavior :
    (normalize r5 true).map NormalizedRecord.lastnames = some ["Smith"] ∧
    ((normalize r5 true).bind (fun nr => create_filename [r5] nr))
      = some "A.2020_T" ∧
    "A.2020_T" ≠ "Smith2020_T" ∧
    ((normalize r5b true).map NormalizedRecord.authorship = some []) ∧
    ((normalize r5b true).bind (fun nr => create_filename [r5b] nr)) = none := by
  refine ⟨?_, ?_, ?_, ?_, ?_⟩ <;> decide

/-- C6 (amended): the year of a normalized record is the first token of the
date string — split on space, hyphen, slash, comma and underscore — that is
exactly 4 characters long and fully numeric, and when no such token exists
the year field is absent (None), not the string 0000; the 0000 sentinel is
substituted only during filename synthesis, where a record without a year
produces the same filename as the same record with year 0000. -/
theorem c6_year_extraction :
    (∀ d : String, format_date d = yearSpec d) ∧
    (∀ (a : RawRecord) (lab : Bool) (nr : NormalizedRecord) (d : String),
      a.date = some d → normalize a lab = some nr → nr.year = format_date d) ∧
    (∀ (arts : List RawRecord) (art : NormalizedRecord),
      art.year = none →
      create_filename arts art
        = create_filename arts { art with year := some "0000" }) := by
  refine ⟨format_date_eq_yearSpec, ?_, ?_⟩
  · intro a lab nr d hd hn
    rcases a with ⟨it, pi, doi, pt, ti, u, iss, vo, da, tg, cr⟩
    simp only at hd
    subst hd
    cases doi <;> cases pt <;> cases ti <;> cases u <;> cases iss <;>
      cases vo <;> cases tg <;> cases cr <;> cases it <;>
      simp [normalize] at hn
    obtain ⟨authors, hA, hF⟩ := hn
    subst hF
    rfl
  · intro arts art hy
    simp [create_filename, hy]

/-- Witness for the amended C6 at concrete inputs: the record dated 2020 is
normalized with year equal to format_date 2020, the date n.d. agrees with
the spec-level extraction, and a year-free record gets the 0000 sentinel in
its filename. -/
theorem c6_year_extraction_witness :
    format_date "n.d." = yearSpec "n.d." ∧
    nr5.year = format_date "2020" ∧
    create_filename [] art6 = create_filename [] { art6 with year := some "0000" } :=
  ⟨c6_year_extraction.1 "n.d.",
   c6_year_extraction.2.1 r5 true nr5 "2020" rfl (by decide),
   c6_year_extraction.2.2 [] art6 rfl⟩

/-- Counterexample to C6 as stated: for the date n.d. the year field of the
normalized record is absent (None), not the sentinel string 0000, and for
the date a_2020 — where the claimed separator set yields no 4-character
numeric token — the code extracts 2020 through the underscore split. -/
theorem c6_counterexample :
    ((normalize r6nd true).map NormalizedRecord.year = some none) ∧
    some (none : Option String) ≠ some (some "0000") ∧
    ((normalize r6us true).map NormalizedRecord.year = some (some "2020")) := by
  refine ⟨?_, ?_, ?_⟩ <;> decide

/-- C9: whenever filename synthesis succeeds (the authorship list is
non-empty, so reading its first entry does not raise), the title fragment
of the synthesized filename is the title-cased, character-filtered,
truncated form of the raw title: it contains only characters from the
class [A-Za-z0-9-_*.] and is at most 25 characters long. -/
theorem c9_title_fragment (arts : List RawRecord) (art : NormalizedRecord)
    (h : art.authorship ≠ []) :
    (∃ pre : String, create_filename arts art
        = some (pre ++ "_" ++ titleFragment art.title)) ∧
    (titleFragment art.title).length ≤ 25 ∧
    (titleFragment art.title).toList.all allowedChar = true := by
  refine ⟨?_, titleFragment_length_le _, titleFragment_allowed _⟩
  obtain ⟨a0, as, ha⟩ := List.exists_cons_of_ne_nil h
  refine ⟨(if pySubRemove ((pySplitChar a0 ' ').headD "") = "" then "XX"
           else pySubRemove ((pySplitChar a0 ' ').headD "")) ++
          (match art.year with
           | none => "0000"
           | some y => if y = "" then "0000" else y), ?_⟩
  simp [create_filename, strInRecordList_eq_false, ha, titleFragment]

/-- A record whose raw title is the example from the specification. -/
def art9 : NormalizedRecord := { nr5 with title := "a study: on bees!" }

/-- Witness for C9 at the concrete example title. -/
theorem c9_title_fragment_witness :
    (∃ pre : String, create_filename [] art9
        = some (pre ++ "_" ++ titleFragment art9.title)) ∧
    (titleFragment art9.title).length ≤ 25 ∧
    (titleFragment art9.title).toList.all allowedChar = true :=
  c9_title_fragment [] art9 (by decide)

/-- C8: running the publication ingestion pipeline a second time with the
same upstream record collections, starting from the world the first
successful run produced, completes again and yields exactly the same
publication-directory contents: the directory is purged before writing on
every run and normalization and filename synthesis are deterministic, so
the result is independent of the pre-existing directory. -/
theorem c8_full_replace_idempotence (dump : NormalizedRecord → String)
    (labItems extItems : List RawRecord) (now : String) (w : World)
    (h : w.lockHeld = false)
    (hd : (fetch_publications dump labItems extItems now w).1
        = DeployResult.done) :
    (fetch_publications dump labItems extItems now
        (fetch_publications dump labItems extItems now w).2).1
      = DeployResult.done ∧
    (fetch_publications dump labItems extItems now
        (fetch_publications dump labItems extItems now w).2).2.pubDir
      = (fetch_publications dump labItems extItems now w).2.pubDir := by
  rcases hf1 : fetch_zotero dump labItems true ([] : List (String × String))
      with _ | d1
  · simp [fetch_publications, update_publications, h, hf1] at hd
  · rcases hf2 : fetch_zotero dump extItems false d1 with _ | d2
    · simp [fetch_publications, update_publications, h, hf1, hf2] at hd
    · constructor <;>
        simp [fetch_publications, update_publications, h, hf1, hf2]

/-- Witness for C8 at a concrete record collection. -/
theorem c8_full_replace_idempotence_witness :
    (fetch_publications dumpX [r5] [] "now"
        (fetch_publications dumpX [r5] [] "now" w0).2).1
      = DeployResult.done ∧
    (fetch_publications dumpX [r5] [] "now"
        (fetch_publications dumpX [r5] [] "now" w0).2).2.pubDir
      = (fetch_publications dumpX [r5] [] "now" w0).2.pubDir :=
  c8_full_replace_idempotence dumpX [r5] [] "now" w0 (by decide) (by decide)

end SpellDeploy
